import Mathlib

/-!
Shallow embedding of the browser front end of this repository
(src/static/js/dashboard.js and the location/weather script) in Lean 4,
together with theorems settling the specification claims.

Strings are modelled as Lean `String`/`List Char`; JS numbers that the
claims compare (confidence scores, weather readings) are modelled as
exact rationals `ℚ`; DOM state touched by the handlers is modelled as
explicit record state; `fetch` outcomes are modelled as explicit outcome
values passed to the handler embedding.  The regex-based `replace` calls
of the source are embedded as recursive character-list transforms with
the same leftmost, global, lazy/greedy semantics the source regexes have
on the newline-free strings they are applied to.
-/

namespace PlantML

/-! ## Generic string machinery used by the regex embeddings -/

/-- The whitespace class of the source's `\s` and of JS `trim`,
restricted to the ASCII whitespace characters that can actually occur in
the strings handled here. -/
def isJsSpace (c : Char) : Bool :=
  c = ' ' || c = '\t' || c = '\n' || c = '\r' || c = '\x0b' || c = '\x0c'

/-- JS `String.prototype.trim`: drop whitespace from both ends. -/
def jsTrim (s : String) : String :=
  String.mk (((s.data.dropWhile isJsSpace).reverse.dropWhile isJsSpace).reverse)

/-- Split a character list around the first occurrence of `pat`:
`splitFirst pat l = some (a, b)` when `l = a ++ pat ++ b` and `a` is the
shortest such prefix; `none` when `pat` does not occur in `l`. -/
def splitFirst (pat : List Char) : List Char → Option (List Char × List Char)
  | [] => none
  | c :: rest =>
    if pat.isPrefixOf (c :: rest) then
      some ([], (c :: rest).drop pat.length)
    else
      match splitFirst pat rest with
      | some (a, b) => some (c :: a, b)
      | none => none

theorem splitFirst_decomp (pat : List Char) :
    ∀ (l a b : List Char), splitFirst pat l = some (a, b) → l = a ++ pat ++ b
  | [], _, _ => by simp [splitFirst]
  | c :: rest, a, b => by
    simp only [splitFirst]
    split
    · rename_i hpre
      intro h
      obtain ⟨ha, hb⟩ := Prod.mk.injEq .. ▸ Option.some.injEq .. ▸ h
      obtain ⟨t, ht⟩ := List.isPrefixOf_iff_prefix.mp hpre
      subst ha hb
      simp [← ht, List.drop_append_of_le_length]
    · cases hrec : splitFirst pat rest with
      | none => simp
      | some ab =>
        obtain ⟨a', b'⟩ := ab
        intro h
        obtain ⟨ha, hb⟩ := Prod.mk.injEq .. ▸ Option.some.injEq .. ▸ h
        subst ha hb
        have := splitFirst_decomp pat rest a' b' hrec
        simp [this]

theorem splitFirst_shrinks (pat : List Char) (hp : pat ≠ [])
    (l a b : List Char) (h : splitFirst pat l = some (a, b)) :
    b.length < l.length := by
  have hd := splitFirst_decomp pat l a b h
  have hℓ : 0 < pat.length := List.length_pos.mpr hp
  subst hd
  simp only [List.length_append]
  omega

/-- Split around the last occurrence of `pat` (fuel-driven recursion on
the suffix; the fuel `l.length + 1` in `splitLast` is always enough since
each step strictly shortens the suffix for a nonempty pattern). -/
def splitLastF (pat : List Char) : Nat → List Char → Option (List Char × List Char)
  | 0, _ => none
  | fuel + 1, l =>
    match splitFirst pat l with
    | none => none
    | some (a, b) =>
      match splitLastF pat fuel b with
      | none => some (a, b)
      | some (a', b') => some (a ++ pat ++ a', b')

/-- Split a character list around the last occurrence of `pat`. -/
def splitLast (pat l : List Char) : Option (List Char × List Char) :=
  splitLastF pat (l.length + 1) l

/-- Number of (possibly overlapping) occurrences of `pat` in `l`. -/
def countOccs (pat : List Char) : List Char → Nat
  | [] => 0
  | c :: rest => (if pat.isPrefixOf (c :: rest) then 1 else 0) + countOccs pat rest

/-! ## The text formatters of dashboard.js -/

/-- Embeds `replace(/\n/g, '<br>')` (dashboard.js lines 268 and 325):
every newline becomes a `<br>`. -/
def replaceNewline : List Char → List Char
  | [] => []
  | c :: r => if c = '\n' then "<br>".data ++ replaceNewline r else c :: replaceNewline r

/-- Embeds `replace(/\n\n/g, '<br><br>')` (dashboard.js line 324):
leftmost non-overlapping newline pairs become `<br><br>`; a lone
newline is left untouched by this pass. -/
def replaceDoubleNewline : List Char → List Char
  | [] => []
  | [c] => [c]
  | c1 :: c2 :: r =>
    if c1 = '\n' ∧ c2 = '\n' then "<br><br>".data ++ replaceDoubleNewline r
    else c1 :: replaceDoubleNewline (c2 :: r)

/-- Embeds `replace(/\*\*(.*?)\*\*/g, '<strong>$1</strong>')`
(dashboard.js line 269): at each `**` the lazily-shortest span up to the
next `**` is wrapped in `<strong>`; if no closing `**` exists in the rest
of the string, nothing further can match.  Fuel-driven: each step
consumes at least one character, so `l.length + 1` fuel never runs out. -/
def boldSpansF : Nat → List Char → List Char
  | 0, l => l
  | _ + 1, [] => []
  | fuel + 1, '*' :: '*' :: rest =>
    match splitFirst ['*', '*'] rest with
    | some (mid, rest') =>
      "<strong>".data ++ mid ++ "</strong>".data ++ boldSpansF fuel rest'
    | none => '*' :: '*' :: rest
  | fuel + 1, c :: rest => c :: boldSpansF fuel rest

def boldSpans (l : List Char) : List Char := boldSpansF (l.length + 1) l

/-- Embeds the dashboard.js line 270 replace whose pattern is
dash-space, a lazy span, then `<br>`, replaced by `<li>$1</li>`:
each `- ` followed (lazily) by a `<br>` becomes an `<li>`
item; a `- ` with no `<br>` anywhere after it cannot match (and then no
later `- ` can match either). -/
def bulletItemsF : Nat → List Char → List Char
  | 0, l => l
  | _ + 1, [] => []
  | fuel + 1, '-' :: ' ' :: rest =>
    match splitFirst "<br>".data rest with
    | some (mid, rest') =>
      "<li>".data ++ mid ++ "</li>".data ++ bulletItemsF fuel rest'
    | none => '-' :: ' ' :: rest
  | fuel + 1, c :: rest => c :: bulletItemsF fuel rest

def bulletItems (l : List Char) : List Char := bulletItemsF (l.length + 1) l

/-- Embeds `replace(/(<li>.*<\/li>)+/g, '<ul>$1</ul>')` (dashboard.js
line 271).  With a greedy `.*` on a newline-free string, the single
match runs from the first `<li>` to the last `</li>`, and `$1` is that
whole span, so the whole span is wrapped in one `<ul>`; past the last
`</li>` no further match is possible. -/
def wrapUl (l : List Char) : List Char :=
  match splitFirst "<li>".data l with
  | none => l
  | some (before, rest) =>
    match splitLast "</li>".data rest with
    | none => l
    | some (m, tail) =>
      before ++ "<ul><li>".data ++ m ++ "</li></ul>".data ++ tail

/-- Embeds `formatDiseaseInfo` (dashboard.js lines 267-273): newlines to
`<br>`, `**…**` to `<strong>`, `- …<br>` to `<li>`, then one `<ul>`
around the `<li>` run. -/
def formatDiseaseInfo (info : String) : String :=
  let f1 := String.mk (replaceNewline info.data)
  let f2 := String.mk (boldSpans f1.data)
  let f3 := String.mk (bulletItems f2.data)
  String.mk (wrapUl f3.data)

/-- Embeds `replace(/(\d+\.\s+)/g, '<strong>$1</strong>')`
(dashboard.js line 326): every maximal digit run followed by a dot and
at least one whitespace character — wherever it occurs in the string,
not only at line starts — is wrapped in `<strong>` together with its
trailing whitespace. -/
def boldNumberMarkersF : Nat → List Char → List Char
  | 0, l => l
  | _ + 1, [] => []
  | fuel + 1, c :: rest =>
    if c.isDigit then
      let ds := (c :: rest).takeWhile Char.isDigit
      match (c :: rest).dropWhile Char.isDigit with
      | '.' :: a2 =>
        let ws := a2.takeWhile isJsSpace
        if ws = [] then c :: boldNumberMarkersF fuel rest
        else
          "<strong>".data ++ ds ++ ['.'] ++ ws ++ "</strong>".data ++
            boldNumberMarkersF fuel (a2.dropWhile isJsSpace)
      | _ => c :: boldNumberMarkersF fuel rest
    else c :: boldNumberMarkersF fuel rest

def boldNumberMarkers (l : List Char) : List Char := boldNumberMarkersF (l.length + 1) l

/-- Embeds `formatCropRecommendations` (dashboard.js lines 322-328). -/
def formatCropRecommendations (text : String) : String :=
  let f1 := String.mk (replaceDoubleNewline text.data)
  let f2 := String.mk (replaceNewline f1.data)
  let f3 := String.mk (boldNumberMarkers f2.data)
  "<div style=\"line-height: 1.8;\">" ++ f3 ++ "</div>"

/-! Spec-side rendering of the C8 claim wording, for comparison with the
code's `formatCropRecommendations`. -/

/-- Split a character list at newlines (lines of the original text). -/
def splitNl : List Char → List (List Char)
  | [] => [[]]
  | '\n' :: r => [] :: splitNl r
  | c :: r =>
    match splitNl r with
    | [] => [[c]]
    | l :: ls => (c :: l) :: ls

/-- Bold a leading ordinal marker (digits, dot, whitespace) of one line,
when the line starts with one. -/
def boldLeadingMarker (line : List Char) : List Char :=
  let ds := line.takeWhile Char.isDigit
  if ds = [] then line
  else
    match line.dropWhile Char.isDigit with
    | '.' :: rest =>
      let ws := rest.takeWhile isJsSpace
      if ws = [] then line
      else
        "<strong>".data ++ ds ++ ['.'] ++ ws ++ "</strong>".data ++
          rest.dropWhile isJsSpace
    | _ => line

/-- Modelled from the spec: the C8 claim's wording, which is not in the
source — newline sequences become line breaks and ONLY the leading
ordinal markers of lines ("1. ", "2. ", …) are bolded, wrapped in the
line-height container.  Used to compare the claimed behaviour with the
code's `formatCropRecommendations`. -/
def formatCropRecommendationsClaimed (text : String) : String :=
  let lines := (splitNl text.data).map (fun l => String.mk (boldLeadingMarker l))
  "<div style=\"line-height: 1.8;\">" ++ String.intercalate "<br>" lines ++ "</div>"

/-! ## Dashboard state model (dashboard.js) -/

/-- A JS `File` as built at dashboard.js line 110: a name, a MIME type
and the (abstracted) blob contents. -/
structure JsFile where
  name : String
  type : String
  blob : Nat
deriving DecidableEq

/-- The badge part of a rendered detection result (dashboard.js
lines 224-235): either the model-confidence badge plus disease name, or
the AI-narrative badge. -/
inductive BadgeView where
  | model (confClass : String) (pct : ℚ) (diseaseName : String)
  | ai
deriving DecidableEq

/-- The contents of the `resultDisplay` element: empty, a rendered
success block, a backend-reported error block, or the fetch-error
block (dashboard.js lines 198, 216-262). -/
inductive ResultView where
  | empty
  | success (plantShown : String) (badge : BadgeView) (infoHTML : String)
  | backendError (message : String) (plantShown : String)
  | fetchError
deriving DecidableEq

/-- The contents of the `imagePreview` element: empty, a captured-frame
preview (dashboard.js lines 112-118) or an uploaded-file preview
(lines 160-166). -/
inductive PreviewView where
  | empty
  | captured (dataUrl : String) (plant : String)
  | uploaded (dataUrl : String) (plant : String)
deriving DecidableEq

/-- The page state touched by the dashboard handlers: the three
module-level variables (`selectedPlant`, `selectedImage`,
`cameraStream`), the DOM pieces the handlers read and write, and the
observable effect traces (alerts shown, requests issued).  A camera
stream is modelled as the list of its track identifiers; stopping a
track adds it to `stoppedTracks`.  The three camera control buttons are
`Option` values because the source guards them with existence checks
(dashboard.js lines 144-146); `none` models an absent element. -/
structure St where
  selectedPlant : String
  selectedImage : Option JsFile
  cameraStream : Option (List Nat)
  stoppedTracks : List Nat
  plantSelectValue : String
  imageUploadOpacity : String
  imageUploadPointerEvents : String
  imageInputDisabled : Bool
  selectedPlantInfoDisplay : String
  selectedPlantInfoHTML : String
  step1Completed : Bool
  step2Active : Bool
  step2Completed : Bool
  step3Active : Bool
  step3Completed : Bool
  resultView : ResultView
  preview : PreviewView
  detectBtnDisabled : Bool
  loadingSpinnerDisplay : String
  analyzingPlantText : String
  videoSrc : Option (List Nat)
  startBtnDisplay : Option String
  captureBtnDisplay : Option String
  stopBtnDisplay : Option String
  guidePresent : Bool
  languageSelectValue : String
  alerts : List String
  requests : List String
deriving DecidableEq

/-- The `selectedPlantInfo.innerHTML` template of dashboard.js
lines 21-24 (template whitespace elided). -/
def plantInfoHTML (p : String) : String :=
  "<strong>✓ Selected Plant:</strong> " ++ p ++
    "<br><small>Please upload or capture a clear image of a " ++ p ++ " leaf.</small>"

/-- Embeds `plantSelected` (dashboard.js lines 5-42).  The handler reads
the select value into `selectedPlant` and branches on its JS truthiness
(nonempty string): the truthy branch enables the image section, shows
the plant info, advances the step indicators, clears the result display
and preview, nulls the selected image and disables the detect button;
the falsy branch dims and disables the image section and rolls the step
indicators back, touching neither the selected image, the result
display nor the detect button. -/
def plantSelected (s : St) : St :=
  let sp := s.plantSelectValue
  if sp ≠ "" then
    { s with
      selectedPlant := sp
      imageUploadOpacity := "1"
      imageUploadPointerEvents := "auto"
      imageInputDisabled := false
      selectedPlantInfoDisplay := "block"
      selectedPlantInfoHTML := plantInfoHTML sp
      step1Completed := true
      step2Active := true
      resultView := .empty
      preview := .empty
      selectedImage := none
      detectBtnDisabled := true }
  else
    { s with
      selectedPlant := sp
      imageUploadOpacity := "0.5"
      imageUploadPointerEvents := "none"
      imageInputDisabled := true
      selectedPlantInfoDisplay := "none"
      step1Completed := false
      step2Active := false }

/-- Embeds `stopCamera` (dashboard.js lines 131-150): if a stream is
active, stop all its tracks and null the handle; then unconditionally
detach the video source, reset the three control buttons (each guarded
by an existence check) and remove the guide overlay if present. -/
def stopCamera (s : St) : St :=
  match s.cameraStream with
  | some tracks =>
    { s with
      stoppedTracks := s.stoppedTracks ++ tracks
      cameraStream := none
      videoSrc := none
      startBtnDisplay := s.startBtnDisplay.map (fun _ => "inline-block")
      captureBtnDisplay := s.captureBtnDisplay.map (fun _ => "none")
      stopBtnDisplay := s.stopBtnDisplay.map (fun _ => "none")
      guidePresent := false }
  | none =>
    { s with
      videoSrc := none
      startBtnDisplay := s.startBtnDisplay.map (fun _ => "inline-block")
      captureBtnDisplay := s.captureBtnDisplay.map (fun _ => "none")
      stopBtnDisplay := s.stopBtnDisplay.map (fun _ => "none")
      guidePresent := false }

/-- Embeds the `canvas.toBlob` callback of `captureImage` (dashboard.js
lines 108-128): name the frame blob `<plant>_<timestamp>.jpg`, store it
as the selected image, render the preview (whose data URL is a
parameter here, standing for whatever `canvas.toDataURL()` returned),
enable the detect button, advance the step indicators, and stop the
camera. -/
def captureImageCallback (blob now : Nat) (dataUrl : String) (s : St) : St :=
  let fileName := s.selectedPlant ++ "_" ++ toString now ++ ".jpg"
  let s1 := { s with selectedImage := some ⟨fileName, "image/jpeg", blob⟩ }
  let s2 := { s1 with preview := .captured dataUrl s1.selectedPlant }
  let s3 := { s2 with
    detectBtnDisabled := false
    step2Completed := true
    step3Active := true }
  stopCamera s3

/-- The parsed JSON envelope of a `/api/detect-disease` response
(dashboard.js lines 212-254; fields the handler reads). -/
structure DetectResp where
  success : Bool
  message : String
  plant_name : String
  method : String
  confidence : ℚ
  disease_name : String
  disease_info : String
deriving DecidableEq

/-- Outcome of the `fetch`/`json()` pair inside the `try` block: either
a rejection (network failure or parse failure, landing in `catch`) or a
parsed envelope. -/
inductive FetchOutcome where
  | fail
  | ok (data : DetectResp)
deriving DecidableEq

/-- JS `a || b` on strings: `a` when nonempty, else `b` (models
`data.plant_name || selectedPlant`, dashboard.js line 221). -/
def jsOrStr (a b : String) : String := if a = "" then b else a

/-- The confidence-badge class choice of dashboard.js line 226:
`data.confidence > 0.8 ? 'high-confidence' : 'medium-confidence'`. -/
def confidenceClass (c : ℚ) : String :=
  if (8 : ℚ) / 10 < c then "high-confidence" else "medium-confidence"

/-- Embeds `detectDisease` (dashboard.js lines 181-265).  Guard: alert
and return when no plant or no image is selected.  Otherwise show the
spinner, clear the result display, set the analyzing-plant label, issue
the multipart POST to `/api/detect-disease`, and render according to
the outcome: on rejection hide the spinner and show the fetch-error
block; on a parsed envelope hide the spinner, then render either the
success block (confidence badge when `method === 'model'`, AI badge
otherwise, plus the formatted disease info) or the backend-error
block. -/
def detectDisease (o : FetchOutcome) (s : St) : St :=
  if s.selectedPlant = "" then
    { s with alerts := s.alerts ++ ["⚠️ Please select a plant type first!"] }
  else
    match s.selectedImage with
    | none => { s with alerts := s.alerts ++ ["⚠️ Please select or capture an image!"] }
    | some _ =>
      let s1 := { s with
        loadingSpinnerDisplay := "block"
        resultView := .empty
        analyzingPlantText := s.selectedPlant
        requests := s.requests ++ ["/api/detect-disease"] }
      match o with
      | .fail => { s1 with loadingSpinnerDisplay := "none", resultView := .fetchError }
      | .ok data =>
        let s2 := { s1 with loadingSpinnerDisplay := "none" }
        if data.success then
          { s2 with
            resultView := .success (jsOrStr data.plant_name s.selectedPlant)
              (if data.method = "model" then
                .model (confidenceClass data.confidence) (data.confidence * 100) data.disease_name
               else .ai)
              (formatDiseaseInfo data.disease_info)
            step3Completed := true }
        else
          { s2 with resultView := .backendError data.message s.selectedPlant }

/-! ## Weather state model (the location/weather script) -/

/-- The `current` block of a weather snapshot (fields the script
reads). -/
structure WCurrent where
  temperature_2m : ℚ
  relative_humidity_2m : ℚ
  precipitation : ℚ
  wind_speed_10m : ℚ
deriving DecidableEq

/-- The `daily` block of a weather snapshot; only `precipitation_sum`
is consumed, and only its first entry. -/
structure WDaily where
  precipitation_sum : List ℚ
deriving DecidableEq

/-- A weather snapshot as consumed by `displayWeather`. -/
structure Weather where
  current : WCurrent
  daily : WDaily
deriving DecidableEq

/-- The parsed JSON envelope of a `/api/weather` response (fields the
script reads). -/
structure WeatherResp where
  success : Bool
  weather : Weather
  city : String
  message : String
deriving DecidableEq

/-- Outcome of the weather `fetch`/`json()` pair: rejection or a parsed
envelope. -/
inductive WeatherOutcome where
  | fail
  | ok (data : WeatherResp)
deriving DecidableEq

/-- The page state touched by the weather handlers.  The advisory input
values are `Option ℚ` (`none` models a field never written); the
crop-recommendation button and crop display are `Option` because the
script guards both with existence checks (part_000 lines 110, 116). -/
structure WSt where
  cityInputValue : String
  weatherDisplay : String
  temperatureValue : Option ℚ
  humidityValue : Option ℚ
  rainfallValue : Option ℚ
  cropBtnDisabled : Option Bool
  cropDisplay : Option String
  alerts : List String
  requests : List String
deriving DecidableEq

/-- JS `x || 0` on a possibly-absent number: `0` when the entry is
absent (`undefined`) or the falsy number `0`, the value otherwise
(models `daily.precipitation_sum[0] || 0`, part_000 line 106). -/
def jsOrZero (x : Option ℚ) : ℚ :=
  match x with
  | none => 0
  | some v => if v = 0 then 0 else v

/-- Embeds `displayWeather` (part_000 lines 77-119): render the four
metric cards, auto-fill the three advisory inputs (rainfall from the
first daily precipitation sum, defaulted to 0 when absent or falsy),
enable the crop-recommendation button if present, and reset the crop
display message if present.  The `cityName` argument is accepted as in
the source but not used by the rendering. -/
def displayWeather (w : Weather) (cityName : String) (s : WSt) : WSt :=
  let cards :=
    "<div class=\"weather-item\"><h3>" ++ toString w.current.temperature_2m ++
      "°C</h3><p>Temperature</p></div><div class=\"weather-item\"><h3>" ++
      toString w.current.relative_humidity_2m ++
      "%</h3><p>Humidity</p></div><div class=\"weather-item\"><h3>" ++
      toString w.current.wind_speed_10m ++
      " km/h</h3><p>Wind Speed</p></div><div class=\"weather-item\"><h3>" ++
      toString w.current.precipitation ++ " mm</h3><p>Precipitation</p></div>"
  { s with
    weatherDisplay := cards
    temperatureValue := some w.current.temperature_2m
    humidityValue := some w.current.relative_humidity_2m
    rainfallValue := some (jsOrZero w.daily.precipitation_sum.head?)
    cropBtnDisabled := s.cropBtnDisabled.map (fun _ => false)
    cropDisplay := s.cropDisplay.map (fun _ =>
      "<p style=\"color: var(--green-primary);\">✅ Weather data loaded! Select soil type and click \"Get Crop Recommendations\"</p>") }

/-- Embeds `getWeather` (part_000 lines 51-75): trim the city input;
when it is empty or the placeholder, alert and return without any
request; otherwise show the loading message, issue the GET to
`/api/weather` (query-string encoding not modelled), and render the
snapshot, the backend error message, or the fetch-error message. -/
def getWeather (o : WeatherOutcome) (s : WSt) : WSt :=
  let city := jsTrim s.cityInputValue
  if city = "" ∨ city = "Detecting location..." then
    { s with alerts := s.alerts ++ ["⚠️ Please enter a city name or use your location!"] }
  else
    let s1 := { s with
      weatherDisplay := "<p>🔄 Loading weather data...</p>"
      requests := s.requests ++ ["/api/weather?city=" ++ city] }
    match o with
    | .fail =>
      { s1 with weatherDisplay :=
          "<p style=\"color: red;\">❌ Error fetching weather data. Please try again.</p>" }
    | .ok data =>
      if data.success then displayWeather data.weather data.city s1
      else
        { s1 with weatherDisplay :=
            "<p style=\"color: red;\">❌ " ++ data.message ++ "</p>" }

/-! ## Concrete states and inputs used by witnesses and counterexamples -/

/-- A concrete captured image file. -/
def file0 : JsFile := ⟨"Tomato_1.jpg", "image/jpeg", 7⟩

/-- A dashboard state in its freshly-loaded shape. -/
def st0 : St where
  selectedPlant := ""
  selectedImage := none
  cameraStream := none
  stoppedTracks := []
  plantSelectValue := ""
  imageUploadOpacity := "0.5"
  imageUploadPointerEvents := "none"
  imageInputDisabled := true
  selectedPlantInfoDisplay := "none"
  selectedPlantInfoHTML := ""
  step1Completed := false
  step2Active := false
  step2Completed := false
  step3Active := false
  step3Completed := false
  resultView := .empty
  preview := .empty
  detectBtnDisabled := true
  loadingSpinnerDisplay := "none"
  analyzingPlantText := ""
  videoSrc := none
  startBtnDisplay := some "inline-block"
  captureBtnDisplay := some "none"
  stopBtnDisplay := some "none"
  guidePresent := false
  languageSelectValue := "en"
  alerts := []
  requests := []

/-- A state mid-wizard: plant chosen, image selected, a previous result
shown, detect button enabled — and the select switched back to the
empty value. -/
def stEmptyReselect : St :=
  { st0 with
    selectedPlant := "Tomato"
    plantSelectValue := ""
    selectedImage := some file0
    resultView := .backendError "old result" "Tomato"
    preview := .captured "data:old" "Tomato"
    detectBtnDisabled := false }

/-- A state mid-wizard with a plant and an image selected. -/
def stReady : St :=
  { st0 with
    selectedPlant := "Tomato"
    plantSelectValue := "Tomato"
    selectedImage := some file0
    detectBtnDisabled := false }

/-- A state with an active camera stream (two tracks). -/
def stStreaming : St :=
  { stReady with
    selectedImage := none
    cameraStream := some [3, 4]
    videoSrc := some [3, 4]
    startBtnDisplay := some "none"
    captureBtnDisplay := some "inline-block"
    stopBtnDisplay := some "inline-block"
    guidePresent := true }

/-- A successful model-method detection envelope with confidence
exactly 0.8. -/
def respModel : DetectResp :=
  ⟨true, "", "Tomato", "model", 8 / 10, "Early Blight", "**Cause**\n- fungus\n"⟩

/-- A weather state in its freshly-loaded shape. -/
def wst0 : WSt where
  cityInputValue := ""
  weatherDisplay := ""
  temperatureValue := none
  humidityValue := none
  rainfallValue := none
  cropBtnDisabled := some true
  cropDisplay := some ""
  alerts := []
  requests := []

/-- A snapshot whose first daily precipitation sum is absent. -/
def weatherNoDaily : Weather := ⟨⟨21, 55, 0, 12⟩, ⟨[]⟩⟩

/-- A snapshot whose first daily precipitation sum is the truthy 5. -/
def weatherRain : Weather := ⟨⟨21, 55, 1, 12⟩, ⟨[5, 2]⟩⟩

/-- A weather state whose city input holds only whitespace. -/
def wstBlank : WSt := { wst0 with cityInputValue := "   " }

/-! ## Theorems -/

theorem br_data : "<br>".data = ['<', 'b', 'r', '>'] := rfl

theorem brbr_data : "<br><br>".data = ['<', 'b', 'r', '>', '<', 'b', 'r', '>'] := rfl

theorem replaceNewline_br (x : List Char) :
    replaceNewline ('<' :: 'b' :: 'r' :: '>' :: x) =
      '<' :: 'b' :: 'r' :: '>' :: replaceNewline x := by
  simp [replaceNewline]

/-- Replacing newline pairs with `<br><br>` and then lone newlines with
`<br>` has the same net effect as replacing every newline with `<br>`. -/
theorem replaceNewline_replaceDoubleNewline :
    ∀ l : List Char, replaceNewline (replaceDoubleNewline l) = replaceNewline l
  | [] => rfl
  | [c] => rfl
  | c1 :: c2 :: r => by
    by_cases h : c1 = '\n' ∧ c2 = '\n'
    · obtain ⟨h1, h2⟩ := h
      subst h1
      subst h2
      rw [replaceDoubleNewline, if_pos ⟨rfl, rfl⟩, brbr_data]
      simp only [List.cons_append, List.nil_append]
      rw [replaceNewline_br, replaceNewline_br]
      rw [replaceNewline_replaceDoubleNewline r]
      simp [replaceNewline, br_data]
    · rw [replaceDoubleNewline, if_neg h]
      by_cases hc : c1 = '\n' <;>
        simp [replaceNewline, hc, replaceNewline_replaceDoubleNewline (c2 :: r)]

/-- C3: `formatDiseaseInfo` on the exact input `"**Bold**\n- a\n- b"`
does NOT produce two list items: the final bullet `- b`, having no
trailing line break, is never turned into an `<li>`, so the single
`<ul>` wraps exactly one `<li>` and the output ends in the raw `- b`. -/
theorem formatDiseaseInfo_example_counterexample :
    formatDiseaseInfo "**Bold**\n- a\n- b" =
      "<strong>Bold</strong><br><ul><li>a</li></ul>- b" ∧
    countOccs "<li>".data (formatDiseaseInfo "**Bold**\n- a\n- b").data = 1 := by
  exact ⟨by decide, by decide⟩

/-- C3 (amended): `formatDiseaseInfo "**Bold**\n- a\n- b"` returns
"Bold" wrapped in a strong tag, a line break, a single enclosing `<ul>`
wrapping ONE `<li>` item (for "a"), and the final bullet `- b` left
unformatted because it lacks a trailing line break. -/
theorem formatDiseaseInfo_example :
    formatDiseaseInfo "**Bold**\n- a\n- b" =
      "<strong>Bold</strong>" ++ "<br>" ++ "<ul><li>a</li></ul>" ++ "- b" := by
  decide

/-- C8: the claim that only the LEADING ordinal markers of lines are
bolded is false: in `"a 1. b"` the marker `1. ` sits mid-line (the only
line starts with `a`), yet `formatCropRecommendations` bolds it, so the
code's output differs from the claimed leading-markers-only rendering. -/
theorem formatCropRecommendations_midline_counterexample :
    formatCropRecommendations "a 1. b" =
      "<div style=\"line-height: 1.8;\">a <strong>1. </strong>b</div>" ∧
    formatCropRecommendationsClaimed "a 1. b" =
      "<div style=\"line-height: 1.8;\">a 1. b</div>" ∧
    formatCropRecommendations "a 1. b" ≠ formatCropRecommendationsClaimed "a 1. b" := by
  exact ⟨by decide, by decide, by decide⟩

/-- C8 (amended): for every input string,
`formatCropRecommendations` replaces blank-line and single-newline
sequences with line breaks — the two passes together amounting to
replacing every newline with a `<br>` — bolds every digit-run + dot +
whitespace marker wherever it occurs in the text (not only at line
starts; `boldNumberMarkers` is applied to the whole flattened text),
and wraps the result in the line-height container. -/
theorem formatCropRecommendations_shape (text : String) :
    formatCropRecommendations text =
      "<div style=\"line-height: 1.8;\">" ++
        String.mk (boldNumberMarkers (replaceNewline text.data)) ++ "</div>" := by
  show "<div style=\"line-height: 1.8;\">" ++
      String.mk (boldNumberMarkers (replaceNewline (replaceDoubleNewline text.data))) ++
      "</div>" = _
  rw [replaceNewline_replaceDoubleNewline]

/-- C1: whenever no plant is selected or no image is selected,
`detectDisease` only shows an alert and returns: the state is otherwise
untouched and in particular no request to `/api/detect-disease` is
issued. -/
theorem detectDisease_guard_noop (s : St) (o : FetchOutcome)
    (h : s.selectedPlant = "" ∨ s.selectedImage = none) :
    ∃ m, detectDisease o s = { s with alerts := s.alerts ++ [m] } ∧
      (detectDisease o s).requests = s.requests := by
  by_cases hp : s.selectedPlant = ""
  · exact ⟨"⚠️ Please select a plant type first!",
      by simp [detectDisease, hp], by simp [detectDisease, hp]⟩
  · have hi : s.selectedImage = none := h.resolve_left hp
    exact ⟨"⚠️ Please select or capture an image!",
      by simp [detectDisease, hp, hi], by simp [detectDisease, hp, hi]⟩

theorem detectDisease_guard_noop_witness :
    ∃ m, detectDisease .fail st0 = { st0 with alerts := st0.alerts ++ [m] } ∧
      (detectDisease .fail st0).requests = st0.requests :=
  detectDisease_guard_noop st0 .fail (Or.inl rfl)

/-- C10: for every run of `detectDisease` that passes the
plant-and-image guard, the loading spinner ends hidden on every
completion path — fetch rejection, backend failure envelope and backend
success envelope alike. -/
theorem detectDisease_spinner_hidden (s : St) (o : FetchOutcome)
    (hp : s.selectedPlant ≠ "") (hi : s.selectedImage ≠ none) :
    (detectDisease o s).loadingSpinnerDisplay = "none" := by
  rcases himg : s.selectedImage with _ | img
  · exact absurd himg hi
  · cases o with
    | fail => simp [detectDisease, hp, himg]
    | ok d => by_cases hs : d.success = true <;> simp [detectDisease, hp, himg, hs]

theorem detectDisease_spinner_hidden_witness :
    (detectDisease .fail stReady).loadingSpinnerDisplay = "none" :=
  detectDisease_spinner_hidden stReady .fail (by decide) (by decide)

/-- C2: on a successful detection response with method `"model"`, the
rendered result carries the confidence badge class chosen by
`confidenceClass`, which is `"high-confidence"` exactly when the
confidence is strictly greater than 0.8; at exactly 0.8 it is
`"medium-confidence"`. -/
theorem detectDisease_confidence_badge (s : St) (d : DetectResp) (img : JsFile)
    (hp : s.selectedPlant ≠ "") (hi : s.selectedImage = some img)
    (hs : d.success = true) (hm : d.method = "model") :
    (detectDisease (.ok d) s).resultView =
      .success (jsOrStr d.plant_name s.selectedPlant)
        (.model (confidenceClass d.confidence) (d.confidence * 100) d.disease_name)
        (formatDiseaseInfo d.disease_info) ∧
    (confidenceClass d.confidence = "high-confidence" ↔ (8 : ℚ) / 10 < d.confidence) ∧
    confidenceClass ((8 : ℚ) / 10) = "medium-confidence" := by
  refine ⟨by simp [detectDisease, hp, hi, hs, hm], ?_, by simp [confidenceClass]⟩
  unfold confidenceClass
  by_cases hc : (8 : ℚ) / 10 < d.confidence
  · simp [hc]
  · simp only [if_neg hc]
    constructor
    · intro hcontra
      exact absurd hcontra (by decide)
    · intro hcontra
      exact absurd hcontra hc

theorem detectDisease_confidence_badge_witness :
    (detectDisease (.ok respModel) stReady).resultView =
      .success (jsOrStr respModel.plant_name stReady.selectedPlant)
        (.model (confidenceClass respModel.confidence) (respModel.confidence * 100)
          respModel.disease_name)
        (formatDiseaseInfo respModel.disease_info) ∧
    (confidenceClass respModel.confidence = "high-confidence" ↔
      (8 : ℚ) / 10 < respModel.confidence) ∧
    confidenceClass ((8 : ℚ) / 10) = "medium-confidence" :=
  detectDisease_confidence_badge stReady respModel file0 (by decide) rfl rfl rfl

/-- C5: switching the plant select back to the empty value does NOT
reset the previously selected image, does not clear the prior result
display, and does not disable the detect button: in the concrete state
`stEmptyReselect` all three survive `plantSelected`. -/
theorem plantSelected_empty_counterexample :
    (plantSelected stEmptyReselect).selectedImage = some file0 ∧
    (plantSelected stEmptyReselect).resultView = .backendError "old result" "Tomato" ∧
    (plantSelected stEmptyReselect).detectBtnDisabled = false :=
  ⟨rfl, rfl, rfl⟩

/-- C5 (amended): `plantSelected` resets the previously selected image,
clears the prior detection result and preview, and disables the detect
button exactly when the newly selected value is nonempty (including
re-selecting the same value); when the selection changes to the
empty/no-plant value, the selected image, the result display and the
detect button are left untouched. -/
theorem plantSelected_reset (s : St) :
    (s.plantSelectValue ≠ "" →
      (plantSelected s).selectedImage = none ∧
      (plantSelected s).resultView = .empty ∧
      (plantSelected s).preview = .empty ∧
      (plantSelected s).detectBtnDisabled = true) ∧
    (s.plantSelectValue = "" →
      (plantSelected s).selectedImage = s.selectedImage ∧
      (plantSelected s).resultView = s.resultView ∧
      (plantSelected s).preview = s.preview ∧
      (plantSelected s).detectBtnDisabled = s.detectBtnDisabled) := by
  constructor <;> intro h <;> simp [plantSelected, h]

theorem plantSelected_reset_witness :
    ((plantSelected stReady).selectedImage = none ∧
      (plantSelected stReady).resultView = .empty ∧
      (plantSelected stReady).preview = .empty ∧
      (plantSelected stReady).detectBtnDisabled = true) ∧
    ((plantSelected stEmptyReselect).selectedImage = stEmptyReselect.selectedImage ∧
      (plantSelected stEmptyReselect).resultView = stEmptyReselect.resultView ∧
      (plantSelected stEmptyReselect).preview = stEmptyReselect.preview ∧
      (plantSelected stEmptyReselect).detectBtnDisabled = stEmptyReselect.detectBtnDisabled) :=
  ⟨(plantSelected_reset stReady).1 (by decide), (plantSelected_reset stEmptyReselect).2 rfl⟩

/-- C6: once the frame blob is produced and the named file
`<plant>_<timestamp>.jpg` is stored as the selected image, the
`captureImage` callback stops the camera stream — the handle is nulled
and every track of the stream is stopped — for every possible rendered
preview content `dataUrl` (the preview rendering has no bearing on the
stream shutdown). -/
theorem captureImage_stops_camera (s : St) (tracks : List Nat) (blob now : Nat)
    (dataUrl : String) (h : s.cameraStream = some tracks) :
    (captureImageCallback blob now dataUrl s).cameraStream = none ∧
    (captureImageCallback blob now dataUrl s).stoppedTracks = s.stoppedTracks ++ tracks ∧
    (captureImageCallback blob now dataUrl s).selectedImage =
      some ⟨s.selectedPlant ++ "_" ++ toString now ++ ".jpg", "image/jpeg", blob⟩ := by
  simp [captureImageCallback, stopCamera, h]

theorem captureImage_stops_camera_witness :
    (captureImageCallback 9 123 "data:url" stStreaming).cameraStream = none ∧
    (captureImageCallback 9 123 "data:url" stStreaming).stoppedTracks =
      stStreaming.stoppedTracks ++ [3, 4] ∧
    (captureImageCallback 9 123 "data:url" stStreaming).selectedImage =
      some ⟨stStreaming.selectedPlant ++ "_" ++ toString 123 ++ ".jpg", "image/jpeg", 9⟩ :=
  captureImage_stops_camera stStreaming [3, 4] 9 123 "data:url" rfl

/-- C7: `stopCamera` is idempotent — running it twice from any state
yields exactly the state of running it once — and after it runs no
camera stream is active; in particular running it with no active stream
is safe (it is a total state function). -/
theorem stopCamera_idempotent (s : St) :
    stopCamera (stopCamera s) = stopCamera s ∧
    (stopCamera s).cameraStream = none ∧
    (stopCamera s).videoSrc = none ∧
    (stopCamera s).startBtnDisplay = s.startBtnDisplay.map (fun _ => "inline-block") ∧
    (stopCamera s).captureBtnDisplay = s.captureBtnDisplay.map (fun _ => "none") ∧
    (stopCamera s).stopBtnDisplay = s.stopBtnDisplay.map (fun _ => "none") ∧
    (stopCamera s).guidePresent = false := by
  rcases hc : s.cameraStream with _ | tracks <;>
    rcases h1 : s.startBtnDisplay with _ | x1 <;>
    rcases h2 : s.captureBtnDisplay with _ | x2 <;>
    rcases h3 : s.stopBtnDisplay with _ | x3 <;>
    simp [stopCamera, hc, h1, h2, h3]

/-- C4: when the city input is empty, whitespace-only, or the
placeholder `"Detecting location..."`, `getWeather` only shows an alert
and returns: the state is otherwise untouched and no request to
`/api/weather` is issued. -/
theorem getWeather_guard_noop (s : WSt) (o : WeatherOutcome)
    (h : s.cityInputValue = "" ∨ jsTrim s.cityInputValue = "" ∨
      s.cityInputValue = "Detecting location...") :
    ∃ m, getWeather o s = { s with alerts := s.alerts ++ [m] } ∧
      (getWeather o s).requests = s.requests := by
  have hg : jsTrim s.cityInputValue = "" ∨
      jsTrim s.cityInputValue = "Detecting location..." := by
    rcases h with h | h | h
    · left
      rw [h]
      decide
    · exact Or.inl h
    · right
      rw [h]
      decide
  exact ⟨"⚠️ Please enter a city name or use your location!",
    by simp [getWeather, hg], by simp [getWeather, hg]⟩

theorem getWeather_guard_noop_witness :
    ∃ m, getWeather .fail wstBlank = { wstBlank with alerts := wstBlank.alerts ++ [m] } ∧
      (getWeather .fail wstBlank).requests = wstBlank.requests :=
  getWeather_guard_noop wstBlank .fail (Or.inr (Or.inl (by decide)))

/-- C9: `displayWeather` writes the rainfall advisory input on every
call: when the first daily precipitation entry is absent or the falsy
number 0 it writes 0 (never leaving the field unset), and when the
entry is a truthy number it writes that first-day value. -/
theorem displayWeather_rainfall (w : Weather) (cityName : String) (s : WSt) :
    ((w.daily.precipitation_sum.head? = none ∨ w.daily.precipitation_sum.head? = some 0) →
      (displayWeather w cityName s).rainfallValue = some 0) ∧
    (∀ v : ℚ, w.daily.precipitation_sum.head? = some v → v ≠ 0 →
      (displayWeather w cityName s).rainfallValue = some v) := by
  constructor
  · rintro (h | h) <;> simp [displayWeather, jsOrZero, h]
  · intro v h hv
    simp [displayWeather, jsOrZero, h, hv]

theorem displayWeather_rainfall_witness :
    (displayWeather weatherNoDaily "X" wst0).rainfallValue = some 0 ∧
    (displayWeather weatherRain "X" wst0).rainfallValue = some 5 :=
  ⟨(displayWeather_rainfall weatherNoDaily "X" wst0).1 (Or.inl rfl),
   (displayWeather_rainfall weatherRain "X" wst0).2 5 rfl (by norm_num)⟩

end PlantML
